import Mathlib

/-!
Verification development for the Evidence Retrieval, Fusion, and Adaptive
Query-Planning Engine of the precision-oncology agent.

The definitions below are a shallow embedding of `src/src/rag_engine.py`
(class `OncoRAGEngine`) and `src/src/agent.py` (class `OncoIntelligenceAgent`).
Python floats are modelled as rationals (every score and weight in the source
is a decimal literal or a product of such), Python exceptions as `Except`,
and the `concurrent.futures` fan-out as a sequential traversal of the target
collections (the claims proved below are insensitive to arrival order; order
dependent statements would quantify over multisets).

External collaborators (vector store, embedder, query expander, LLM) are
parameters: a backend search call that may raise is a Lean function into
`Except Unit`.
-/

namespace Onco

/- Batteries marks rational arithmetic `@[irreducible]`, which stops `decide`
and `rfl` from evaluating concrete score computations; re-enable unfolding
(elaboration-only; the kernel is unaffected). -/
set_option allowUnsafeReducibility true
attribute [local semireducible] Rat.mul Rat.add Rat.inv Rat.sub

/-! ### String helpers

Python's `pat in s` substring test and related operations, over `List Char`.
`String.toUpper`/`String.toLower` from core model Python's `str.upper()` /
`str.lower()` (the vocabularies involved are ASCII).
-/

/-- Does `s` start with `pat` (character lists)? -/
def charsStart : List Char → List Char → Bool
  | [], _ => true
  | _ :: _, [] => false
  | p :: ps, c :: cs => p == c && charsStart ps cs

/-- Does `s` contain `pat` as a contiguous substring (character lists)?
Mirrors Python's `pat in s` (the empty pattern is contained in every string). -/
def charsHasSub (pat : List Char) : List Char → Bool
  | [] => charsStart pat []
  | c :: cs => charsStart pat (c :: cs) || charsHasSub pat cs

/-- Python's substring containment `pat in hay`. -/
def strHasSub (hay pat : String) : Bool :=
  charsHasSub pat.data hay.data

/-- Python's `str.upper()`; per character `Char.toUpper` agrees with Python on
the ASCII vocabularies and questions involved. -/
def strToUpper (s : String) : String := String.mk (s.data.map Char.toUpper)

/-- Python's `str.lower()`. -/
def strToLower (s : String) : String := String.mk (s.data.map Char.toLower)

/-- Python's `s.startswith(pat)`. -/
def strStarts (s pat : String) : Bool := charsStart pat.data s.data

/-- Replace every non-overlapping, leftmost-first occurrence of `pat` by
`rep`, structured on a fuel argument so that concrete inputs evaluate; fuel
`s.length` always suffices because every step consumes at least one
character. -/
def replaceFuel (pat rep : List Char) : Nat → List Char → List Char
  | 0, s => s
  | _ + 1, [] => []
  | fuel + 1, c :: cs =>
    if charsStart pat (c :: cs) && !pat.isEmpty then
      rep ++ replaceFuel pat rep fuel (List.drop (pat.length - 1) cs)
    else
      c :: replaceFuel pat rep fuel cs

/-- Python's `s.replace(pat, rep)` (for the non-empty patterns the citation
formatter uses). -/
def strReplace (s pat rep : String) : String :=
  String.mk (replaceFuel pat.data rep.data s.data.length s.data)

/-! ### Data model (`src/src/models.py` and the fields used by the engine)

The engine (`rag_engine.py`) reads and writes, on every hit object returned by
the vector-store backend, the attributes `record_id`, `score`, `collection`,
`label`, `citation`, `relevance`, `text`.  A raw hit (as returned by the
backend, before `_search_one` weights and tags it) carries the raw similarity
score; a tagged hit carries the weighted score in the same `score` slot
(`hit.score *= weight` overwrites it in place).
-/

/-- Hit as returned by the vector-store backend, before weighting/tagging. -/
structure RawHit where
  record_id : String
  score : ℚ
  text : String
deriving DecidableEq, Repr

/-- Hit after `_search_one` applied the collection weight and provenance tags.
`score` holds the weighted score (raw score × collection weight). -/
structure SearchHit where
  record_id : String
  score : ℚ
  collection : String
  label : String
  citation : String
  relevance : String
  text : String
deriving DecidableEq, Repr

/-- Per-collection static configuration (one row of `COLLECTION_CONFIG`). -/
structure CollConfig where
  weight : ℚ
  label : String
  filter_field : Option String
  year_field : Option String
deriving DecidableEq, Repr

/-- `AgentQuery` (the fields the engine reads: `text`/`question` and `gene`). -/
structure AgentQuery where
  question : String
  gene : Option String
deriving DecidableEq, Repr

/-- `CrossCollectionResult` (the fields produced by `retrieve`). -/
structure CrossCollectionResult where
  query : String
  hits : List SearchHit
  total_collections_searched : Nat
deriving DecidableEq, Repr

/-! ### Collection configuration (`rag_engine.py`, `COLLECTION_CONFIG`),
with the weight values from `config/settings.py`. -/

/-- `COLLECTION_CONFIG`: collection name → weight/label/filter fields,
in source (insertion) order. -/
def COLLECTION_CONFIG : List (String × CollConfig) :=
  [ ("onco_variants",    ⟨18/100, "Variant",    some "gene", none⟩),
    ("onco_literature",  ⟨16/100, "Literature", some "gene", some "year"⟩),
    ("onco_therapies",   ⟨14/100, "Therapy",    none,        none⟩),
    ("onco_guidelines",  ⟨12/100, "Guideline",  none,        some "year"⟩),
    ("onco_trials",      ⟨10/100, "Trial",      none,        some "start_year"⟩),
    ("onco_biomarkers",  ⟨8/100,  "Biomarker",  none,        none⟩),
    ("onco_resistance",  ⟨7/100,  "Resistance", some "gene", none⟩),
    ("onco_pathways",    ⟨6/100,  "Pathway",    none,        none⟩),
    ("onco_outcomes",    ⟨4/100,  "Outcome",    none,        none⟩),
    ("onco_cases",       ⟨2/100,  "Case",       none,        none⟩),
    ("genomic_evidence", ⟨3/100,  "Genomic",    none,        none⟩) ]

/-- The known collection names, in table order. -/
def configNames : List String := COLLECTION_CONFIG.map (·.1)

/-- Python `COLLECTION_CONFIG[name]` / `name in COLLECTION_CONFIG`. -/
def lookupConfig (name : String) : Option CollConfig :=
  (COLLECTION_CONFIG.find? (fun p => p.1 == name)).map (·.2)

/-- `_MAX_EVIDENCE = 30`: cap on the merged evidence list. -/
def MAX_EVIDENCE : Nat := 30

/-- `OncoIntelligenceAgent.MIN_SIMILARITY_SCORE = 0.30`. -/
def MIN_SIMILARITY_SCORE : ℚ := 30/100

/-- `OncoIntelligenceAgent.MAX_RETRIES = 2`. -/
def MAX_RETRIES : Nat := 2

/-- `OncoIntelligenceAgent.MIN_SUFFICIENT_HITS = 3`. -/
def MIN_SUFFICIENT_HITS : Nat := 3

/-- `OncoIntelligenceAgent.MIN_COLLECTIONS_FOR_SUFFICIENT = 2`. -/
def MIN_COLLECTIONS_FOR_SUFFICIENT : Nat := 2

/-- `_BGE_INSTRUCTION` prefix prepended to every query before embedding. -/
def BGE_INSTRUCTION : String :=
  "Represent this sentence for searching relevant passages: "

/-! ### Fan-out search executor (`OncoRAGEngine._search_all_collections`) -/

/-- Structured-filter value (gene name or year bound). -/
inductive FilterVal where
  | s (v : String)
  | i (v : Int)
deriving DecidableEq, Repr

/-- The filter map built per collection, as an ordered association list. -/
abbrev Filters := List (String × FilterVal)

/-- The vector-store backend: `collection_manager.search(collection, vector,
top_k, filters)`; `Except.error` models a raised exception. -/
abbrev Backend := String → List ℚ → Nat → Option Filters → Except Unit (List RawHit)

/-- `_score_relevance`: classify a weighted score into high/medium/low. -/
def scoreRelevance (score : ℚ) : String :=
  if 85/100 ≤ score then "high"
  else if 65/100 ≤ score then "medium"
  else "low"

/-- `_format_citation`: clickable citation string for a record id. -/
def formatCitation (collection record_id : String) : String :=
  if strStarts record_id "PMID:" then
    let pmid := strReplace record_id "PMID:" ""
    "[PubMed " ++ pmid ++ "](https://pubmed.ncbi.nlm.nih.gov/" ++ pmid ++ "/)"
  else if strStarts (strToUpper record_id) "NCT" then
    let nct := strToUpper record_id
    "[" ++ nct ++ "](https://clinicaltrials.gov/study/" ++ nct ++ ")"
  else
    let label := match lookupConfig collection with
      | some cfg => cfg.label
      | none => collection
    "[" ++ label ++ ": " ++ record_id ++ "]"

/-- The per-hit weighting/tagging body of `_search_one`:
`hit.score *= weight` (overwriting the raw score in place), then collection,
label, citation, and relevance tier computed from the weighted score. -/
def tagHit (name : String) (cfg : CollConfig) (h : RawHit) : SearchHit :=
  { record_id := h.record_id
    score := h.score * cfg.weight
    collection := name
    label := cfg.label
    citation := formatCitation name h.record_id
    relevance := scoreRelevance (h.score * cfg.weight)
    text := h.text }

/-- `_search_one`'s weighting/tagging loop over a hit list. -/
def tagHits (name : String) (cfg : CollConfig) (l : List RawHit) : List SearchHit :=
  l.map (tagHit name cfg)

/-- Filter map built by `_search_one`: gene filter if the collection supports
one and the query carries a (truthy) gene, then year-range bounds if the
collection has a year field. -/
def buildFilters (cfg : CollConfig) (query : AgentQuery)
    (year_min year_max : Option Int) : Filters :=
  (match cfg.filter_field, query.gene with
    | some f, some g => if g = "" then [] else [(f, FilterVal.s g)]
    | _, _ => []) ++
  (match cfg.year_field with
    | some yf =>
        (match year_min with
          | some y => [(yf ++ "__gte", FilterVal.i y)]
          | none => []) ++
        (match year_max with
          | some y => [(yf ++ "__lte", FilterVal.i y)]
          | none => [])
    | none => [])

/-- `_search_one`: search one collection, absorbing a backend exception into
zero hits, then weight and tag every returned hit.  An unknown collection
name yields zero hits as well (in the source an unknown name would raise a
`KeyError` inside the worker, which the `as_completed` loop catches and
logs, contributing zero hits). -/
def searchOne (bk : Backend) (qv : List ℚ) (query : AgentQuery) (top_k : Nat)
    (year_min year_max : Option Int) (name : String) : List SearchHit :=
  match lookupConfig name with
  | none => []
  | some cfg =>
    let filters := buildFilters cfg query year_min year_max
    match bk name qv top_k (if filters.isEmpty then none else some filters) with
    | Except.error _ => []
    | Except.ok hits => tagHits name cfg hits

/-- Engine-level failure that escapes `_search_all_collections`:
`ThreadPoolExecutor(max_workers=0)` raises
`ValueError: max_workers must be greater than 0` when the target collection
set is empty (`min(0, 8) = 0`). -/
inductive EngineError where
  | poolCreation
deriving DecidableEq, Repr

/-- The fan-out over a computed target list: creating the worker pool fails
when the target list is empty; otherwise every target collection is searched
(per-collection failures already absorbed by `searchOne`) and the hits are
collected.  Arrival order among collections is not significant in the source
(`as_completed`); the embedding fixes target-list order. -/
def searchAllTargets (bk : Backend) (qv : List ℚ) (query : AgentQuery)
    (top_k : Nat) (year_min year_max : Option Int) (targets : List String) :
    Except EngineError (List SearchHit) :=
  if targets.isEmpty then Except.error EngineError.poolCreation
  else Except.ok (targets.flatMap (searchOne bk qv query top_k year_min year_max))

/-- Target collection set: the explicit filter (when truthy) intersected with
the known collection table, else the full table. -/
def computeTargets (collections_filter : Option (List String)) : List String :=
  match collections_filter with
  | some l => if l.isEmpty then configNames
              else l.filter (fun c => (lookupConfig c).isSome)
  | none => configNames

/-- `_search_all_collections`. -/
def searchAllCollections (bk : Backend) (qv : List ℚ) (query : AgentQuery)
    (top_k : Nat) (collections_filter : Option (List String))
    (year_min year_max : Option Int) : Except EngineError (List SearchHit) :=
  searchAllTargets bk qv query top_k year_min year_max
    (computeTargets collections_filter)

/-! ### Merge/Rank/Dedupe (`OncoRAGEngine._merge_and_rank`) -/

/-- First-occurrence dedupe by `record_id` with an accumulating seen set. -/
def dedupeAux (seen : List String) : List SearchHit → List SearchHit
  | [] => []
  | h :: t =>
    if h.record_id ∈ seen then dedupeAux seen t
    else h :: dedupeAux (h.record_id :: seen) t

/-- The dedupe pass of `_merge_and_rank`. -/
def dedupeById (l : List SearchHit) : List SearchHit := dedupeAux [] l

/-- The sort order of `_merge_and_rank`: `sort(key=score, reverse=True)`
places higher weighted scores first, ties keeping their original order
(Python's sort is stable). -/
def scoreGE (a b : SearchHit) : Prop := b.score ≤ a.score

instance : DecidableRel scoreGE :=
  fun a b => (inferInstance : Decidable (b.score ≤ a.score))

instance : IsTotal SearchHit scoreGE :=
  ⟨fun a b => (le_total b.score a.score)⟩

instance : IsTrans SearchHit scoreGE :=
  ⟨fun _ _ _ hab hbc => le_trans hbc hab⟩

/-- `_merge_and_rank`: dedupe by id (first occurrence wins), stable sort
descending by weighted score, cap at `_MAX_EVIDENCE = 30`.
`List.insertionSort` is a stable sort (equal keys keep their input order),
so it computes exactly the list Python's stable `list.sort` produces. -/
def mergeAndRank (hits : List SearchHit) : List SearchHit :=
  (List.insertionSort scoreGE (dedupeById hits)).take MAX_EVIDENCE

/-! ### Query expansion pass and `retrieve` -/

/-- `_embed_query`: embed with the BGE instruction prefix. -/
def embedQuery (emb : String → List ℚ) (text : String) : List ℚ :=
  emb (BGE_INSTRUCTION ++ text)

/-- `_expanded_search`: one additional fan-out pass over the query text
concatenated with the expansion terms (skipped when no terms). -/
def expandedSearch (bk : Backend) (emb : String → List ℚ)
    (expander : String → List String) (query : AgentQuery) (top_k : Nat)
    (collections_filter : Option (List String)) (year_min year_max : Option Int) :
    Except EngineError (List SearchHit) :=
  let terms := expander query.question
  if terms.isEmpty then Except.ok []
  else
    let expanded_text := query.question ++ " " ++ String.intercalate " " terms
    searchAllCollections bk (embedQuery emb expanded_text) query top_k
      collections_filter year_min year_max

/-- The text `retrieve` embeds: the question, prefixed by the conversation
context when one is (truthily) present. -/
def retrieveEmbedText (query : AgentQuery) (conversation_context : Option String) :
    String :=
  match conversation_context with
  | some c => if c = "" then query.question else c ++ " " ++ query.question
  | none => query.question

/-- The expansion pass of `retrieve`: skipped when no expander is configured. -/
def expandPass (bk : Backend) (emb : String → List ℚ)
    (expander : Option (String → List String)) (query : AgentQuery) (top_k : Nat)
    (collections_filter : Option (List String)) (year_min year_max : Option Int) :
    Except EngineError (List SearchHit) :=
  match expander with
  | some ex => expandedSearch bk emb ex query top_k collections_filter year_min year_max
  | none => Except.ok []

/-- `retrieve`: primary fan-out, optional expansion pass (with per-collection
limit `max(top_k // 2, 3)`), merge/rank, and result assembly. -/
def retrieve (bk : Backend) (emb : String → List ℚ)
    (expander : Option (String → List String)) (query : AgentQuery)
    (top_k : Nat) (collections_filter : Option (List String))
    (year_min year_max : Option Int) (conversation_context : Option String) :
    Except EngineError CrossCollectionResult :=
  match searchAllCollections bk
      (embedQuery emb (retrieveEmbedText query conversation_context))
      query top_k collections_filter year_min year_max with
  | Except.error e => Except.error e
  | Except.ok all1 =>
    match expandPass bk emb expander query (max (top_k / 2) 3)
        collections_filter year_min year_max with
    | Except.error e => Except.error e
    | Except.ok all2 =>
      Except.ok
        { query := query.question
          hits := mergeAndRank (all1 ++ all2)
          total_collections_searched := (computeTargets collections_filter).length }

/-- `cross_collection_search`: the agent's entry point — `retrieve` with its
default arguments (`top_k=10`, no collection filter, no year range, no
conversation context), returning the ranked hit list. -/
def crossCollectionSearch (bk : Backend) (emb : String → List ℚ)
    (expander : Option (String → List String)) (query : AgentQuery) :
    Except EngineError (List SearchHit) :=
  (retrieve bk emb expander query 10 none none none none).map (·.hits)

/-! ### Query planner (`src/src/agent.py`)

`KNOWN_GENES` and `KNOWN_CANCER_TYPES` are Python sets; their iteration order
is unspecified, so the embedding fixes source-declaration order.  Every claim
proved below about the planner depends only on membership/emptiness, never on
that order.  `_CANCER_ALIASES` and the topic-keyword table are dicts, iterated
in insertion order.
-/

/-- `KNOWN_GENES` (source-declaration order). -/
def KNOWN_GENES : List String :=
  [ "BRAF", "EGFR", "ALK", "ROS1", "KRAS", "HER2",
    "NTRK", "RET", "MET", "FGFR", "PIK3CA", "IDH1",
    "IDH2", "BRCA", "BRCA1", "BRCA2", "TP53", "PTEN", "CDKN2A",
    "STK11", "ESR1", "ERBB2", "NRAS", "APC", "VHL",
    "KIT", "PDGFRA", "FLT3", "NPM1", "DNMT3A" ]

/-- `KNOWN_CANCER_TYPES` (source-declaration order). -/
def KNOWN_CANCER_TYPES : List String :=
  [ "NSCLC", "BREAST", "MELANOMA", "COLORECTAL", "PANCREATIC",
    "OVARIAN", "PROSTATE", "GLIOMA", "GLIOBLASTOMA", "AML",
    "CML", "CLL", "DLBCL", "BLADDER", "RENAL", "HEPATOCELLULAR",
    "GASTRIC", "ESOPHAGEAL", "THYROID", "ENDOMETRIAL", "CERVICAL",
    "HEAD_AND_NECK", "SARCOMA", "CHOLANGIOCARCINOMA", "MESOTHELIOMA" ]

/-- `_CANCER_ALIASES` (insertion order). -/
def CANCER_ALIASES : List (String × String) :=
  [ ("lung", "NSCLC"), ("lung cancer", "NSCLC"), ("non-small cell lung", "NSCLC"),
    ("non small cell lung", "NSCLC"), ("nsclc", "NSCLC"),
    ("lung adenocarcinoma", "NSCLC"), ("small cell lung", "SCLC"),
    ("sclc", "SCLC"), ("breast cancer", "BREAST"), ("breast", "BREAST"),
    ("triple negative breast", "BREAST"), ("tnbc", "BREAST"),
    ("colon", "COLORECTAL"), ("colon cancer", "COLORECTAL"),
    ("colorectal cancer", "COLORECTAL"), ("crc", "COLORECTAL"),
    ("rectal cancer", "COLORECTAL"), ("melanoma", "MELANOMA"),
    ("skin cancer", "MELANOMA"), ("cutaneous melanoma", "MELANOMA"),
    ("pancreatic", "PANCREATIC"), ("pancreatic cancer", "PANCREATIC"),
    ("pdac", "PANCREATIC"), ("ovarian", "OVARIAN"), ("ovarian cancer", "OVARIAN"),
    ("prostate", "PROSTATE"), ("prostate cancer", "PROSTATE"),
    ("crpc", "PROSTATE"), ("glioma", "GLIOMA"), ("gbm", "GLIOBLASTOMA"),
    ("glioblastoma", "GLIOBLASTOMA"), ("aml", "AML"), ("acute myeloid", "AML"),
    ("acute myeloid leukemia", "AML"), ("cml", "CML"), ("chronic myeloid", "CML"),
    ("chronic myeloid leukemia", "CML"), ("cll", "CLL"),
    ("chronic lymphocytic leukemia", "CLL"), ("bladder", "BLADDER"),
    ("bladder cancer", "BLADDER"), ("urothelial", "BLADDER"),
    ("renal", "RENAL"), ("kidney", "RENAL"), ("kidney cancer", "RENAL"),
    ("rcc", "RENAL"), ("liver", "HEPATOCELLULAR"), ("hcc", "HEPATOCELLULAR"),
    ("liver cancer", "HEPATOCELLULAR"),
    ("hepatocellular carcinoma", "HEPATOCELLULAR"), ("gastric", "GASTRIC"),
    ("stomach", "GASTRIC"), ("stomach cancer", "GASTRIC"),
    ("gastric cancer", "GASTRIC"), ("thyroid", "THYROID"),
    ("thyroid cancer", "THYROID"), ("endometrial", "ENDOMETRIAL"),
    ("uterine", "ENDOMETRIAL"), ("endometrial cancer", "ENDOMETRIAL"),
    ("sarcoma", "SARCOMA"), ("esophageal", "ESOPHAGEAL"),
    ("esophageal cancer", "ESOPHAGEAL"),
    ("cholangiocarcinoma", "CHOLANGIOCARCINOMA"),
    ("bile duct cancer", "CHOLANGIOCARCINOMA"),
    ("head and neck", "HEAD_AND_NECK"), ("hnscc", "HEAD_AND_NECK"),
    ("cervical", "CERVICAL"), ("cervical cancer", "CERVICAL"),
    ("mesothelioma", "MESOTHELIOMA") ]

/-- The keyword → topic-label table in `search_plan` (insertion order). -/
def topicKeywords : List (String × String) :=
  [ ("resistance", "therapeutic resistance"),
    ("biomarker", "biomarker identification"),
    ("prognosis", "prognostic significance"),
    ("survival", "survival outcomes"),
    ("immunotherapy", "immunotherapy response"),
    ("targeted therapy", "targeted therapy"),
    ("clinical trial", "clinical trials"),
    ("combination", "combination therapy"),
    ("mutation", "mutation landscape"),
    ("variant", "variant interpretation"),
    ("expression", "gene expression"),
    ("amplification", "gene amplification"),
    ("fusion", "gene fusion"),
    ("methylation", "epigenetic regulation"),
    ("liquid biopsy", "liquid biopsy / ctDNA"),
    ("ctdna", "liquid biopsy / ctDNA"),
    ("pdl1", "PD-L1 / immune checkpoint"),
    ("pd-l1", "PD-L1 / immune checkpoint"),
    ("checkpoint", "PD-L1 / immune checkpoint"),
    ("tumor mutational burden", "TMB"),
    ("tmb", "TMB"),
    ("microsatellite", "MSI / microsatellite instability"),
    ("msi", "MSI / microsatellite instability") ]

/-- The comparative signal phrases in `search_plan`. -/
def comparativeSignals : List String :=
  ["compare", "vs", "versus", "difference between", "head to head"]

/-- `SearchPlan` dataclass. -/
structure SearchPlan where
  question : String
  identified_topics : List String
  target_genes : List String
  relevant_cancer_types : List String
  search_strategy : String
  sub_questions : List String
deriving DecidableEq, Repr

/-- Gene extraction: known genes appearing as substrings of the uppercased
question. -/
def planGenes (q_upper : String) : List String :=
  KNOWN_GENES.filter (fun g => strHasSub q_upper g)

/-- Cancer-type extraction: canonical names in the uppercased question, then
aliases in the lowercased question resolved to canonical values, skipping
canonical values already present. -/
def planCancers (q_upper q_lower : String) : List String :=
  let canonical := KNOWN_CANCER_TYPES.filter (fun ct => strHasSub q_upper ct)
  CANCER_ALIASES.foldl
    (fun acc p =>
      if strHasSub q_lower p.1 && !(acc.contains p.2) then acc ++ [p.2] else acc)
    canonical

/-- Topic extraction: keyword table matched against the lowercased question,
first-match order, no duplicate topic labels. -/
def planTopics (q_lower : String) : List String :=
  topicKeywords.foldl
    (fun acc p =>
      if strHasSub q_lower p.1 && !(acc.contains p.2) then acc ++ [p.2] else acc)
    []

/-- Does the lowercased question contain any comparative signal phrase? -/
def hasComparativeSignal (q_lower : String) : Bool :=
  comparativeSignals.any (fun sig => strHasSub q_lower sig)

/-- Order-preserving string dedupe (the `seen` set in `_decompose_question`). -/
def dedupeStrAux (seen : List String) : List String → List String
  | [] => []
  | s :: t =>
    if s ∈ seen then dedupeStrAux seen t
    else s :: dedupeStrAux (s :: seen) t

/-- `_decompose_question`: per-gene, per-cancer, and topic-driven
sub-questions, deduplicated preserving first occurrence. -/
def decomposeQuestion (genes cancer_types topics : List String) : List String :=
  let part_genes :=
    if 1 < genes.length then
      genes.map (fun gene =>
        let cancer_ctx := match cancer_types.head? with
          | some ct => " in " ++ ct
          | none => ""
        "What is the role of " ++ gene ++ cancer_ctx ++ "?")
    else []
  let part_cancers :=
    if 1 < cancer_types.length then
      let gene_ctx := match genes.head? with
        | some g => g ++ " "
        | none => ""
      cancer_types.map (fun ct => gene_ctx ++ "therapeutic landscape in " ++ ct)
    else []
  let part_resistance :=
    if topics.contains "therapeutic resistance" && !genes.isEmpty then
      ["Mechanisms of resistance to " ++ genes.headD "" ++ " inhibitors"]
    else []
  let part_trials :=
    if topics.contains "clinical trials" then
      let gene_ctx := match genes.head? with
        | some g => " targeting " ++ g
        | none => ""
      let cancer_ctx := match cancer_types.head? with
        | some ct => " in " ++ ct
        | none => ""
      ["Active clinical trials" ++ gene_ctx ++ cancer_ctx]
    else []
  let part_biomarkers :=
    if topics.contains "biomarker identification" then
      let cancer_ctx := match cancer_types.head? with
        | some ct => " for " ++ ct
        | none => ""
      ["Predictive biomarkers" ++ cancer_ctx]
    else []
  let part_combination :=
    if topics.contains "combination therapy" && !genes.isEmpty then
      ["Combination strategies with " ++ genes.headD "" ++ " inhibitors"]
    else []
  dedupeStrAux []
    (part_genes ++ part_cancers ++ part_resistance ++ part_trials ++
      part_biomarkers ++ part_combination)

/-- `search_plan`: entity/topic extraction, strategy selection in priority
order (comparative, then targeted, then broad), and decomposition. -/
def search_plan (question : String) : SearchPlan :=
  let q_upper := strToUpper question
  let q_lower := strToLower question
  let target_genes := planGenes q_upper
  let relevant_cancer_types := planCancers q_upper q_lower
  let identified_topics := planTopics q_lower
  let search_strategy :=
    if hasComparativeSignal q_lower then "comparative"
    else if !target_genes.isEmpty && !relevant_cancer_types.isEmpty then "targeted"
    else "broad"
  { question := question
    identified_topics := identified_topics
    target_genes := target_genes
    relevant_cancer_types := relevant_cancer_types
    search_strategy := search_strategy
    sub_questions := decomposeQuestion target_genes relevant_cancer_types identified_topics }

/-! ### Evidence sufficiency evaluator (`evaluate_evidence`)

The evidence items the agent accumulates are `SearchHit`s
(`models.SearchHit` has required `score` and `collection` fields, so the
defensive `getattr(e, "score", None)` / `hasattr(e, "collection")` branches
of the source never see a missing attribute on this type).
-/

/-- The filter step of `evaluate_evidence`: drop items whose `score` field is
below `MIN_SIMILARITY_SCORE`. -/
def scoredEvidence (evidence : List SearchHit) : List SearchHit :=
  evidence.filter (fun e => !(decide (e.score < MIN_SIMILARITY_SCORE)))

/-- The set of distinct collection names among the remaining items. -/
def collectionsRepresented (l : List SearchHit) : Finset String :=
  (l.map (·.collection)).toFinset

/-- Mean of a list of scores (`0` when empty). -/
def avgRatOf (scores : List ℚ) : ℚ :=
  if scores.isEmpty then 0 else scores.sum / scores.length

/-- The `avg_score` computed by `evaluate_evidence`. -/
def avgScoreOf (l : List SearchHit) : ℚ := avgRatOf (l.map (·.score))

/-- `evaluate_evidence`: rate accumulated evidence as
insufficient/partial/sufficient. -/
def evaluate_evidence (evidence : List SearchHit) : String :=
  if evidence.isEmpty then "insufficient"
  else
    let scored := scoredEvidence evidence
    let hit_count := scored.length
    let colls := collectionsRepresented scored
    let avg_score := avgScoreOf scored
    if MIN_SUFFICIENT_HITS ≤ hit_count ∧
        MIN_COLLECTIONS_FOR_SUFFICIENT ≤ colls.card ∧ 50/100 ≤ avg_score then
      "sufficient"
    else if MIN_SUFFICIENT_HITS ≤ hit_count ∧
        MIN_COLLECTIONS_FOR_SUFFICIENT ≤ colls.card then
      "sufficient"
    else if 0 < hit_count then "partial"
    else "insufficient"

/-! ### Fallback queries and the adaptive retrieval loop (`run`) -/

/-- `_generate_fallback_queries`. -/
def generateFallbackQueries (plan : SearchPlan) : List String :=
  let gene_fb := plan.target_genes.flatMap (fun gene =>
    [gene ++ " oncology therapeutic implications",
     gene ++ " mutation clinical significance"])
  let cancer_fb := plan.relevant_cancer_types.map (fun ct =>
    ct ++ " precision medicine current landscape")
  let fallbacks := gene_fb ++ cancer_fb
  if fallbacks.isEmpty then [plan.question ++ " precision oncology"]
  else fallbacks

/-- One SEARCH state: run every query in `queries_to_run` and append non-empty
result lists to the running accumulator. -/
def searchPass (searchFn : String → List SearchHit)
    (queries : List String) (acc : List SearchHit) : List SearchHit :=
  queries.foldl (fun a q => let r := searchFn q; if r.isEmpty then a else a ++ r) acc

/-- Outcome of the retry loop: accumulated evidence, final (possibly
broadened) strategy and the number of times the SEARCH state executed. -/
structure LoopResult where
  evidence : List SearchHit
  strategy : String
  searchExecs : Nat
deriving DecidableEq, Repr

/-- The SEARCH/EVALUATE/BROADEN loop of `run`
(`for attempt in range(1, MAX_RETRIES + 2)`), parametrised by the search
function (one query → merged hits) and the evaluator.  The fuel argument is
the remaining number of range iterations; `run` starts it at
`MAX_RETRIES + 1`.  On an unsatisfactory verdict the strategy is broadened
(`targeted` flips to `broad`) and the query list is regenerated from the
plan's extracted entities. -/
def runAttempts (searchFn : String → List SearchHit)
    (evalFn : List SearchHit → String)
    (genes cancer_types : List String) (question : String) :
    Nat → Nat → List String → String → List SearchHit → LoopResult
  | 0, _, _, strategy, evidence => ⟨evidence, strategy, 0⟩
  | fuel + 1, attempt, queries, strategy, evidence =>
    let evidence' := searchPass searchFn queries evidence
    let verdict := evalFn evidence'
    if verdict = "sufficient" ∨ MAX_RETRIES < attempt then ⟨evidence', strategy, 1⟩
    else
      let strategy' := if strategy = "targeted" then "broad" else strategy
      let plan' : SearchPlan := ⟨question, [], genes, cancer_types, strategy', []⟩
      let queries' := generateFallbackQueries plan'
      let rest := runAttempts searchFn evalFn genes cancer_types question
        fuel (attempt + 1) queries' strategy' evidence'
      ⟨rest.evidence, rest.strategy, rest.searchExecs + 1⟩

/-- `AgentResponse` (the fields `run`/`synthesize` produce that the claims
concern; the markdown report and timestamp are omitted). -/
structure AgentResponse where
  question : String
  answer : String
  evidence : CrossCollectionResult
  plan : Option SearchPlan
deriving DecidableEq, Repr

/-- The evidence slice forwarded to the LLM prompt by `synthesize`
(`flat_hits[:_MAX_EVIDENCE]`). -/
def promptEvidence (flat_hits : List SearchHit) : List SearchHit :=
  flat_hits.take MAX_EVIDENCE

/-- `synthesize`: flatten the accumulated evidence (the identity on a list of
`SearchHit`s, which all carry a `score`), obtain the LLM answer (the LLM is a
parameter; `none` models the unconfigured client) and assemble the response.
The returned `CrossCollectionResult` carries the full flattened hit list;
only `promptEvidence flat_hits` goes into the LLM prompt. -/
def synthesize (llmAnswer : Option String) (question : String)
    (evidence : List SearchHit) (plan : Option SearchPlan) : AgentResponse :=
  let flat_hits := evidence
  let answer := match llmAnswer with
    | some a => a
    | none => "LLM client not configured. Evidence retrieved but synthesis unavailable."
  { question := question
    answer := answer
    evidence := { query := question
                  hits := flat_hits
                  total_collections_searched := COLLECTION_CONFIG.length }
    plan := plan }

/-- The search function `run` uses per query string: `cross_collection_search`
on an `AgentQuery` built from the query text.  (The extra keyword arguments
the source passes — `target_genes`, `cancer_types`, `strategy` — are not
fields of `models.AgentQuery` and are silently ignored by pydantic, so the
engine sees only the text.)  `cross_collection_search` never raises with its
default arguments (`crossCollectionSearch_ok` below); the error arm is dead. -/
def agentSearchFn (bk : Backend) (emb : String → List ℚ)
    (expander : Option (String → List String)) (q : String) : List SearchHit :=
  match crossCollectionSearch bk emb expander ⟨q, none⟩ with
  | Except.ok hits => hits
  | Except.error _ => []

/-- `OncoIntelligenceAgent.run`: plan once, loop
SEARCH → EVALUATE → (BROADEN) bounded by `MAX_RETRIES`, then hand the
accumulated evidence and the (possibly broadened) plan to `synthesize`. -/
def runAgent (bk : Backend) (emb : String → List ℚ)
    (expander : Option (String → List String)) (llmAnswer : Option String)
    (question : String) : AgentResponse :=
  let plan := search_plan question
  let lr := runAttempts (agentSearchFn bk emb expander) evaluate_evidence
    plan.target_genes plan.relevant_cancer_types question
    (MAX_RETRIES + 1) 1 (plan.question :: plan.sub_questions)
    plan.search_strategy []
  let finalPlan : SearchPlan := { plan with search_strategy := lr.strategy }
  synthesize llmAnswer question lr.evidence (some finalPlan)

/-! ### Statement-level predicates and spec-side comparison definitions -/

/-- Weighted scores are non-increasing by position. -/
def sortedByScoreDesc (l : List SearchHit) : Prop :=
  l.Pairwise scoreGE

/-- No two items share a record identifier. -/
def nodupIds (l : List SearchHit) : Prop :=
  (l.map (fun h => h.record_id)).Nodup

/-- The simplified evaluator claim C3 describes: `sufficient` exactly when,
after the minimum-similarity filter, at least `MIN_SUFFICIENT_HITS` items
from at least `MIN_COLLECTIONS_FOR_SUFFICIENT` distinct collections remain
(no `avg_score` branch); `insufficient` when nothing remains; `partial`
otherwise. -/
def evaluateSimplified (evidence : List SearchHit) : String :=
  if MIN_SUFFICIENT_HITS ≤ (scoredEvidence evidence).length ∧
      MIN_COLLECTIONS_FOR_SUFFICIENT ≤
        (collectionsRepresented (scoredEvidence evidence)).card then
    "sufficient"
  else if (scoredEvidence evidence).isEmpty then "insufficient"
  else "partial"

/-- Modelled from the spec's words for the comparison in claim C1: an
evaluator that filters and averages by the RAW (unweighted) similarity score
of each executor item (each item paired with its collection name), with the
same thresholds and decision order as `evaluate_evidence`. -/
def evaluateRawClaim (items : List (RawHit × String)) : String :=
  if items.isEmpty then "insufficient"
  else
    let scored := items.filter (fun e => !(decide (e.1.score < MIN_SIMILARITY_SCORE)))
    let hit_count := scored.length
    let colls := (scored.map (fun e => e.2)).toFinset
    let avg_score := avgRatOf (scored.map (fun e => e.1.score))
    if MIN_SUFFICIENT_HITS ≤ hit_count ∧
        MIN_COLLECTIONS_FOR_SUFFICIENT ≤ colls.card ∧ 50/100 ≤ avg_score then
      "sufficient"
    else if MIN_SUFFICIENT_HITS ≤ hit_count ∧
        MIN_COLLECTIONS_FOR_SUFFICIENT ≤ colls.card then
      "sufficient"
    else if 0 < hit_count then "partial"
    else "insufficient"

/-! ## Helper lemmas -/

theorem filter_map_comm {α β : Type} (f : α → β) (p : β → Bool) (l : List α) :
    (l.map f).filter p = (l.filter (fun a => p (f a))).map f := by
  induction l with
  | nil => rfl
  | cons a t ih => by_cases h : p (f a) <;> simp [h, ih]

theorem mem_dedupeAux {x : SearchHit} :
    ∀ {l : List SearchHit} {seen : List String},
      x ∈ dedupeAux seen l → x ∈ l ∧ x.record_id ∉ seen := by
  intro l
  induction l with
  | nil => intro seen h; simp [dedupeAux] at h
  | cons a t ih =>
    intro seen h
    rw [dedupeAux] at h
    by_cases ha : a.record_id ∈ seen
    · rw [if_pos ha] at h
      obtain ⟨h1, h2⟩ := ih h
      exact ⟨List.mem_cons_of_mem a h1, h2⟩
    · rw [if_neg ha] at h
      rcases List.mem_cons.mp h with hx | hx
      · subst hx; exact ⟨List.mem_cons_self x t, ha⟩
      · obtain ⟨h1, h2⟩ := ih hx
        refine ⟨List.mem_cons_of_mem a h1, fun hmem => h2 ?_⟩
        exact List.mem_cons_of_mem _ hmem

theorem dedupeAux_pairwise :
    ∀ (l : List SearchHit) (seen : List String),
      (dedupeAux seen l).Pairwise (fun a b => a.record_id ≠ b.record_id)
  | [], _ => by simp [dedupeAux]
  | a :: t, seen => by
    rw [dedupeAux]
    by_cases ha : a.record_id ∈ seen
    · rw [if_pos ha]; exact dedupeAux_pairwise t seen
    · rw [if_neg ha]
      refine List.Pairwise.cons ?_ (dedupeAux_pairwise t _)
      intro b hb he
      exact (mem_dedupeAux hb).2 (by simp [he])

theorem dedupeById_pairwise (l : List SearchHit) :
    (dedupeById l).Pairwise (fun a b => a.record_id ≠ b.record_id) :=
  dedupeAux_pairwise l []

theorem dedupeAux_eq_self :
    ∀ (l : List SearchHit) (seen : List String),
      (l.map (fun h => h.record_id)).Nodup → (∀ x ∈ l, x.record_id ∉ seen) →
      dedupeAux seen l = l
  | [], _, _, _ => rfl
  | a :: t, seen, hnd, hs => by
    rw [dedupeAux, if_neg (hs a (List.mem_cons_self a t))]
    rw [List.map_cons] at hnd
    have hnd' := List.nodup_cons.mp hnd
    congr 1
    refine dedupeAux_eq_self t _ hnd'.2 ?_
    intro x hx hmem
    rcases List.mem_cons.mp hmem with he | he
    · exact hnd'.1 (he ▸ List.mem_map_of_mem (fun h => h.record_id) hx)
    · exact hs x (List.mem_cons_of_mem a hx) he

theorem dedupeById_eq_self {l : List SearchHit} (h : nodupIds l) :
    dedupeById l = l :=
  dedupeAux_eq_self l [] h (by simp)

theorem mergeAndRank_sorted (l : List SearchHit) :
    sortedByScoreDesc (mergeAndRank l) :=
  (List.sorted_insertionSort scoreGE (dedupeById l)).sublist
    (List.take_sublist MAX_EVIDENCE _)

theorem mergeAndRank_nodupIds (l : List SearchHit) : nodupIds (mergeAndRank l) := by
  have hperm : (List.insertionSort scoreGE (dedupeById l)).Perm (dedupeById l) :=
    List.perm_insertionSort scoreGE _
  have hp : (List.insertionSort scoreGE (dedupeById l)).Pairwise
      (fun a b => a.record_id ≠ b.record_id) :=
    (hperm.pairwise_iff (fun h => Ne.symm h)).mpr (dedupeById_pairwise l)
  have ht := hp.sublist (List.take_sublist MAX_EVIDENCE _)
  unfold nodupIds mergeAndRank
  exact List.pairwise_map.mpr ht

theorem mergeAndRank_length_le (l : List SearchHit) :
    (mergeAndRank l).length ≤ MAX_EVIDENCE :=
  List.length_take_le _ _

theorem scoredEvidence_append (l e : List SearchHit) :
    scoredEvidence (l ++ e) = scoredEvidence l ++ scoredEvidence e :=
  List.filter_append _ _

theorem eval_sufficient_iff (l : List SearchHit) :
    evaluate_evidence l = "sufficient" ↔
      MIN_SUFFICIENT_HITS ≤ (scoredEvidence l).length ∧
      MIN_COLLECTIONS_FOR_SUFFICIENT ≤ (collectionsRepresented (scoredEvidence l)).card := by
  unfold evaluate_evidence
  by_cases hl : l.isEmpty
  · have hs : scoredEvidence l = [] := by
      rw [List.isEmpty_iff.mp hl]; rfl
    rw [if_pos hl, hs]
    constructor
    · intro h; exact absurd h (by decide)
    · intro h; exact absurd h.1 (by decide)
  · rw [if_neg hl]
    simp only []
    split_ifs with h1 h2 h3
    · exact iff_of_true rfl ⟨h1.1, h1.2.1⟩
    · exact iff_of_true rfl h2
    · exact iff_of_false (by decide) h2
    · exact iff_of_false (by decide) h2

theorem retrieve_ok_shape {bk : Backend} {emb : String → List ℚ}
    {expander : Option (String → List String)} {query : AgentQuery}
    {top_k : Nat} {collections_filter : Option (List String)}
    {year_min year_max : Option Int} {ctx : Option String}
    {r : CrossCollectionResult}
    (h : retrieve bk emb expander query top_k collections_filter year_min year_max ctx =
      Except.ok r) :
    ∃ m, r.hits = mergeAndRank m := by
  unfold retrieve at h
  rcases hs : searchAllCollections bk
      (embedQuery emb (retrieveEmbedText query ctx))
      query top_k collections_filter year_min year_max with e | all1
  · rw [hs] at h; exact absurd h (by simp)
  · rw [hs] at h
    rcases he : expandPass bk emb expander query (max (top_k / 2) 3)
        collections_filter year_min year_max with e | all2
    · rw [he] at h; exact absurd h (by simp)
    · rw [he] at h
      refine ⟨all1 ++ all2, ?_⟩
      have := (Except.ok.injEq _ _).mp h
      rw [← this]

theorem searchAllCollections_none (bk : Backend) (qv : List ℚ) (query : AgentQuery)
    (top_k : Nat) (year_min year_max : Option Int) :
    searchAllCollections bk qv query top_k none year_min year_max =
      Except.ok (configNames.flatMap (searchOne bk qv query top_k year_min year_max)) :=
  rfl

theorem expandedSearch_none_ok (bk : Backend) (emb : String → List ℚ)
    (ex : String → List String) (query : AgentQuery) (top_k : Nat)
    (year_min year_max : Option Int) :
    ∃ hits, expandedSearch bk emb ex query top_k none year_min year_max =
      Except.ok hits := by
  unfold expandedSearch
  by_cases ht : (ex query.question).isEmpty
  · rw [if_pos ht]; exact ⟨[], rfl⟩
  · rw [if_neg ht]
    exact ⟨_, searchAllCollections_none _ _ _ _ _ _⟩

theorem expandPass_noFilter_ok (bk : Backend) (emb : String → List ℚ)
    (expander : Option (String → List String)) (query : AgentQuery) (top_k : Nat)
    (year_min year_max : Option Int) :
    ∃ hits, expandPass bk emb expander query top_k none year_min year_max =
      Except.ok hits := by
  unfold expandPass
  rcases expander with _ | ex
  · exact ⟨[], rfl⟩
  · exact expandedSearch_none_ok bk emb ex query top_k year_min year_max

theorem crossCollectionSearch_ok (bk : Backend) (emb : String → List ℚ)
    (expander : Option (String → List String)) (query : AgentQuery) :
    ∃ hits, crossCollectionSearch bk emb expander query = Except.ok hits := by
  obtain ⟨hits2, h2⟩ := expandPass_noFilter_ok bk emb expander query
    (max (10 / 2) 3) none none
  unfold crossCollectionSearch retrieve
  rw [searchAllCollections_none]
  simp only [h2]
  exact ⟨_, rfl⟩

theorem agentSearchFn_shape (bk : Backend) (emb : String → List ℚ)
    (expander : Option (String → List String)) (q : String) :
    ∃ m, agentSearchFn bk emb expander q = mergeAndRank m := by
  unfold agentSearchFn
  rcases hc : crossCollectionSearch bk emb expander ⟨q, none⟩ with e | hits
  · refine ⟨[], ?_⟩
    simp [mergeAndRank, dedupeById, dedupeAux]
  · unfold crossCollectionSearch at hc
    rcases hr : retrieve bk emb expander ⟨q, none⟩ 10 none none none none with e | r
    · rw [hr] at hc
      exact absurd hc (by simp [Except.map])
    · rw [hr] at hc
      simp only [Except.map, Except.ok.injEq] at hc
      obtain ⟨m, hm⟩ := retrieve_ok_shape hr
      exact ⟨m, by rw [← hc, hm]⟩

theorem searchOne_of_fail {bk : Backend} {c : String}
    (hfail : ∀ vec k f, bk c vec k f = Except.error ()) (qv : List ℚ)
    (query : AgentQuery) (top_k : Nat) (year_min year_max : Option Int) :
    searchOne bk qv query top_k year_min year_max c = [] := by
  unfold searchOne
  rcases lookupConfig c with _ | cfg
  · rfl
  · simp only [hfail]

theorem flatMap_erase_of_eq_nil {f : String → List SearchHit} {a : String}
    (hf : f a = []) : ∀ l : List String, l.flatMap f = (l.erase a).flatMap f := by
  intro l
  induction l with
  | nil => rfl
  | cons b t ih =>
    by_cases hba : b = a
    · subst hba
      rw [List.erase_cons_head, List.flatMap_cons, hf, List.nil_append]
    · rw [List.erase_cons, if_neg (by simp [hba]), List.flatMap_cons,
        List.flatMap_cons, ih]

theorem searchPass_decomp (searchFn : String → List SearchHit)
    (P : List SearchHit → Prop) (hsf : ∀ q, P (searchFn q)) :
    ∀ (queries : List String) (acc : List SearchHit) (segs : List (List SearchHit)),
      acc = segs.flatten → (∀ s ∈ segs, P s) →
      ∃ segs' : List (List SearchHit),
        searchPass searchFn queries acc = segs'.flatten ∧ ∀ s ∈ segs', P s := by
  intro queries
  induction queries with
  | nil => intro acc segs h1 h2; exact ⟨segs, h1, h2⟩
  | cons q t ih =>
    intro acc segs h1 h2
    rw [searchPass, List.foldl_cons]
    by_cases hr : (searchFn q).isEmpty
    · rw [if_pos hr]
      exact ih acc segs h1 h2
    · rw [if_neg hr]
      refine ih (acc ++ searchFn q) (segs ++ [searchFn q]) ?_ ?_
      · rw [List.flatten_append, h1]; simp
      · intro s hs
        rcases List.mem_append.mp hs with hs | hs
        · exact h2 s hs
        · rw [List.mem_singleton.mp hs]; exact hsf q

theorem runAttempts_evidence_decomp (searchFn : String → List SearchHit)
    (evalFn : List SearchHit → String) (genes cancer_types : List String)
    (question : String) (P : List SearchHit → Prop)
    (hsf : ∀ q, P (searchFn q)) :
    ∀ (fuel attempt : Nat) (queries : List String) (strategy : String)
      (evidence : List SearchHit) (segs : List (List SearchHit)),
      evidence = segs.flatten → (∀ s ∈ segs, P s) →
      ∃ segs' : List (List SearchHit),
        (runAttempts searchFn evalFn genes cancer_types question
            fuel attempt queries strategy evidence).evidence = segs'.flatten ∧
        ∀ s ∈ segs', P s := by
  intro fuel
  induction fuel with
  | zero => intro attempt queries strategy evidence segs h1 h2; exact ⟨segs, h1, h2⟩
  | succ n ih =>
    intro attempt queries strategy evidence segs h1 h2
    rw [runAttempts]
    obtain ⟨segs', hs1, hs2⟩ :=
      searchPass_decomp searchFn P hsf queries evidence segs h1 h2
    by_cases hdone : evalFn (searchPass searchFn queries evidence) = "sufficient" ∨
        MAX_RETRIES < attempt
    · rw [if_pos hdone]
      exact ⟨segs', hs1, hs2⟩
    · rw [if_neg hdone]
      simp only []
      exact ih (attempt + 1) _ _ _ segs' hs1 hs2

theorem runAttempts_execs_le (searchFn : String → List SearchHit)
    (evalFn : List SearchHit → String) (genes cancer_types : List String)
    (question : String) :
    ∀ (fuel attempt : Nat) (queries : List String) (strategy : String)
      (evidence : List SearchHit),
      (runAttempts searchFn evalFn genes cancer_types question
          fuel attempt queries strategy evidence).searchExecs ≤ fuel := by
  intro fuel
  induction fuel with
  | zero => intro attempt queries strategy evidence; rw [runAttempts]
  | succ n ih =>
    intro attempt queries strategy evidence
    rw [runAttempts]
    by_cases hdone : evalFn (searchPass searchFn queries evidence) = "sufficient" ∨
        MAX_RETRIES < attempt
    · rw [if_pos hdone]
      exact Nat.succ_le_succ (Nat.zero_le n)
    · rw [if_neg hdone]
      simp only []
      exact Nat.succ_le_succ (ih (attempt + 1) _ _ _)

theorem search_plan_strategy (q : String) :
    (search_plan q).search_strategy =
      if hasComparativeSignal (strToLower q) then "comparative"
      else if !(planGenes (strToUpper q)).isEmpty &&
          !(planCancers (strToUpper q) (strToLower q)).isEmpty then "targeted"
      else "broad" := rfl

theorem search_plan_genes (q : String) :
    (search_plan q).target_genes = planGenes (strToUpper q) := rfl

theorem search_plan_cancers (q : String) :
    (search_plan q).relevant_cancer_types =
      planCancers (strToUpper q) (strToLower q) := rfl

/-! ## Claims -/

/-- C3: the `avg_score >= 0.50` branch of `evaluate_evidence` never gates the
outcome: for every input evidence list the evaluator is extensionally equal
to the simplified evaluator without that branch — `sufficient` exactly when,
after the minimum-similarity filter, at least 3 items from at least 2
distinct collections remain (regardless of `avg_score`); `insufficient` when
no items remain; `partial` otherwise. -/
theorem C3_avg_branch_never_gates (evidence : List SearchHit) :
    evaluate_evidence evidence = evaluateSimplified evidence := by
  by_cases hc : MIN_SUFFICIENT_HITS ≤ (scoredEvidence evidence).length ∧
      MIN_COLLECTIONS_FOR_SUFFICIENT ≤
        (collectionsRepresented (scoredEvidence evidence)).card
  · rw [(eval_sufficient_iff evidence).mpr hc, evaluateSimplified, if_pos hc]
  · rw [evaluateSimplified, if_neg hc]
    unfold evaluate_evidence
    by_cases hl : evidence.isEmpty
    · rw [if_pos hl]
      have hs : scoredEvidence evidence = [] := by
        rw [List.isEmpty_iff.mp hl]; rfl
      rw [hs]
      rfl
    · rw [if_neg hl]
      simp only []
      rw [if_neg (fun h => hc ⟨h.1, h.2.1⟩), if_neg hc]
      by_cases hz : 0 < (scoredEvidence evidence).length
      · rw [if_pos hz, if_neg ?_]
        intro he
        rw [List.isEmpty_iff.mp he] at hz
        exact absurd hz (by decide)
      · rw [if_neg hz, if_pos ?_]
        cases hse : scoredEvidence evidence with
        | nil => rfl
        | cons a t => rw [hse] at hz; exact absurd (by simp) hz

/-- C4: retry bound — the SEARCH/EVALUATE loop of `run` executes the SEARCH
state at most `MAX_RETRIES + 1 = 3` times, for every search behaviour
(hence every question and engine) and every evaluator behaviour, including
one that answers `insufficient` on every call.  `runAgent` invokes
`runAttempts` exactly with fuel `MAX_RETRIES + 1`, start attempt `1` and an
empty accumulator. -/
theorem C4_retry_bound (searchFn : String → List SearchHit)
    (evalFn : List SearchHit → String) (genes cancer_types : List String)
    (question : String) (queries : List String) (strategy : String) :
    (runAttempts searchFn evalFn genes cancer_types question
        (MAX_RETRIES + 1) 1 queries strategy []).searchExecs ≤ MAX_RETRIES + 1 ∧
    MAX_RETRIES + 1 = 3 :=
  ⟨runAttempts_execs_le searchFn evalFn genes cancer_types question
      (MAX_RETRIES + 1) 1 queries strategy [], rfl⟩

/-- C6: sufficiency monotonicity — appending items to an evidence list
`evaluate_evidence` rates `sufficient` never downgrades the verdict. -/
theorem C6_sufficiency_monotone (l extra : List SearchHit)
    (h : evaluate_evidence l = "sufficient") :
    evaluate_evidence (l ++ extra) = "sufficient" := by
  rw [eval_sufficient_iff] at h ⊢
  obtain ⟨h1, h2⟩ := h
  rw [scoredEvidence_append]
  constructor
  · refine le_trans h1 ?_
    rw [List.length_append]
    omega
  · refine le_trans h2 (Finset.card_le_card ?_)
    unfold collectionsRepresented
    rw [List.map_append, List.toFinset_append]
    exact Finset.subset_union_left

/-- Witness for C6 at a concrete sufficient list (3 hits, 2 collections)
extended by a low-scoring hit from a new collection. -/
theorem C6_witness :
    evaluate_evidence
        [⟨"a", 9/10, "c1", "", "", "", ""⟩, ⟨"b", 9/10, "c2", "", "", "", ""⟩,
          ⟨"c", 9/10, "c2", "", "", "", ""⟩] = "sufficient" ∧
    evaluate_evidence
        ([⟨"a", 9/10, "c1", "", "", "", ""⟩, ⟨"b", 9/10, "c2", "", "", "", ""⟩,
          ⟨"c", 9/10, "c2", "", "", "", ""⟩] ++ [⟨"d", 1/10, "c3", "", "", "", ""⟩]) =
      "sufficient" :=
  ⟨by decide, C6_sufficiency_monotone _ _ (by decide)⟩

/-- C7: `_merge_and_rank` is idempotent — dedupe by first occurrence, stable
descending sort by weighted score, and the cap at 30 jointly fix their own
output. -/
theorem C7_mergeAndRank_idempotent (x : List SearchHit) :
    mergeAndRank (mergeAndRank x) = mergeAndRank x := by
  have key : ∀ m : List SearchHit, nodupIds m → sortedByScoreDesc m →
      m.length ≤ MAX_EVIDENCE → mergeAndRank m = m := by
    intro m h1 h2 h3
    unfold mergeAndRank
    rw [dedupeById_eq_self h1, List.Sorted.insertionSort_eq h2,
      List.take_of_length_le h3]
  exact key _ (mergeAndRank_nodupIds x) (mergeAndRank_sorted x)
    (mergeAndRank_length_le x)

/-- C8: output invariant of `retrieve` — whenever `retrieve` returns a result
(for any query, any backend behaviour across collections and the expansion
pass, any filters), its hit list has weighted scores non-increasing by
position, no two hits sharing a record identifier, and at most 30 items. -/
theorem C8_retrieve_output_invariant (bk : Backend) (emb : String → List ℚ)
    (expander : Option (String → List String)) (query : AgentQuery)
    (top_k : Nat) (collections_filter : Option (List String))
    (year_min year_max : Option Int) (ctx : Option String)
    (r : CrossCollectionResult)
    (h : retrieve bk emb expander query top_k collections_filter year_min
        year_max ctx = Except.ok r) :
    sortedByScoreDesc r.hits ∧ nodupIds r.hits ∧ r.hits.length ≤ MAX_EVIDENCE := by
  obtain ⟨m, hm⟩ := retrieve_ok_shape h
  rw [hm]
  exact ⟨mergeAndRank_sorted m, mergeAndRank_nodupIds m, mergeAndRank_length_le m⟩

/-- Witness for C8 at a concrete engine (empty backend, no expander). -/
theorem C8_witness :
    sortedByScoreDesc (CrossCollectionResult.mk "q" [] 11).hits ∧
    nodupIds (CrossCollectionResult.mk "q" [] 11).hits ∧
    (CrossCollectionResult.mk "q" [] 11).hits.length ≤ MAX_EVIDENCE :=
  C8_retrieve_output_invariant (fun _ _ _ _ => Except.ok []) (fun _ => []) none
    ⟨"q", none⟩ 10 none none none none (CrossCollectionResult.mk "q" [] 11) rfl

/-- C9: planner strategy selection follows the stated priority order for
every question string — any comparative signal phrase in the lowercased
question yields `comparative`; otherwise a known gene together with a known
cancer type yields `targeted`; otherwise `broad` — and the three literal
scenarios of the claim hold. -/
theorem C9_planner_strategy_priority :
    (∀ q : String, hasComparativeSignal (strToLower q) = true →
      (search_plan q).search_strategy = "comparative") ∧
    (∀ q : String, hasComparativeSignal (strToLower q) = false →
      (search_plan q).target_genes ≠ [] →
      (search_plan q).relevant_cancer_types ≠ [] →
      (search_plan q).search_strategy = "targeted") ∧
    (∀ q : String, hasComparativeSignal (strToLower q) = false →
      ((search_plan q).target_genes = [] ∨
        (search_plan q).relevant_cancer_types = []) →
      (search_plan q).search_strategy = "broad") ∧
    (search_plan "compare drugX vs drugY").search_strategy = "comparative" ∧
    (search_plan "BRAF mutation in melanoma").search_strategy = "targeted" ∧
    (search_plan "general question with no known terms").search_strategy = "broad" := by
  refine ⟨fun q h => ?_, fun q h h1 h2 => ?_, fun q h h12 => ?_, by decide, by decide,
    by decide⟩
  · rw [search_plan_strategy, if_pos h]
  · rw [search_plan_genes] at h1
    rw [search_plan_cancers] at h2
    rw [search_plan_strategy, if_neg (by simp [h]), if_pos]
    simp only [Bool.and_eq_true, Bool.not_eq_true']
    exact ⟨by simpa using h1, by simpa using h2⟩
  · rw [search_plan_genes, search_plan_cancers] at h12
    rw [search_plan_strategy, if_neg (by simp [h]), if_neg]
    simp only [Bool.and_eq_true, Bool.not_eq_true']
    intro hcon
    rcases h12 with h12 | h12
    · rw [h12] at hcon
      exact absurd hcon.1 (by decide)
    · rw [h12] at hcon
      exact absurd hcon.2 (by decide)

/-- Witness for C9's universally quantified parts at concrete questions. -/
theorem C9_witness :
    (search_plan "osimertinib vs gefitinib").search_strategy = "comparative" ∧
    (search_plan "EGFR mutations in NSCLC").search_strategy = "targeted" ∧
    (search_plan "what is cancer").search_strategy = "broad" :=
  ⟨C9_planner_strategy_priority.1 "osimertinib vs gefitinib" (by decide),
    C9_planner_strategy_priority.2.1 "EGFR mutations in NSCLC" (by decide)
      (by decide) (by decide),
    C9_planner_strategy_priority.2.2.1 "what is cancer" (by decide)
      (Or.inl (by decide))⟩

/-- C10: a non-empty `collections_filter` list naming no known collection
yields an empty target set; `_search_all_collections` then builds a worker
pool of size `min(0, 8) = 0`, which raises
(`ValueError: max_workers must be greater than 0`), so `retrieve` propagates
an exception instead of returning an empty evidence result. -/
theorem C10_unknown_filter_raises (bk : Backend) (emb : String → List ℚ)
    (expander : Option (String → List String)) (query : AgentQuery)
    (top_k : Nat) (year_min year_max : Option Int) (ctx : Option String)
    (fl : List String) (hne : fl ≠ [])
    (hunknown : ∀ c ∈ fl, lookupConfig c = none) :
    retrieve bk emb expander query top_k (some fl) year_min year_max ctx =
      Except.error EngineError.poolCreation := by
  have h1 : fl.isEmpty = false := by
    cases fl with
    | nil => exact absurd rfl hne
    | cons a t => rfl
  have htargets : computeTargets (some fl) = [] := by
    unfold computeTargets
    simp only [h1, Bool.false_eq_true, if_false, List.filter_eq_nil_iff]
    intro a ha
    simp [hunknown a ha]
  have hsac : searchAllCollections bk
      (embedQuery emb (retrieveEmbedText query ctx)) query top_k (some fl)
      year_min year_max = Except.error EngineError.poolCreation := by
    unfold searchAllCollections searchAllTargets
    rw [htargets]
    rfl
  unfold retrieve
  rw [hsac]

/-- Witness for C10 with the unknown collection name `"bogus"`. -/
theorem C10_witness :
    retrieve (fun _ _ _ _ => Except.ok []) (fun _ => []) none ⟨"q", none⟩ 10
      (some ["bogus"]) none none none = Except.error EngineError.poolCreation :=
  C10_unknown_filter_raises (fun _ _ _ _ => Except.ok []) (fun _ => []) none
    ⟨"q", none⟩ 10 none none none ["bogus"] (by decide) (by decide)

/-- Counterexample to C5 as stated: with N = 1 (a single target collection
whose search always raises), `searchAll` returns the empty hit list without
raising, but `searchAll` on the target set with that collection removed (now
empty) raises at worker-pool creation — the two runs are not identical. -/
theorem C5_counterexample :
    searchAllTargets (fun _ _ _ _ => Except.error ()) [] ⟨"q", none⟩ 10 none none
        ["onco_literature"] = Except.ok [] ∧
    searchAllTargets (fun _ _ _ _ => Except.error ()) [] ⟨"q", none⟩ 10 none none
        (["onco_literature"].erase "onco_literature") =
      Except.error EngineError.poolCreation :=
  ⟨rfl, rfl⟩

/-- C5 (amended): fault isolation of the fan-out executor for N ≥ 2 — when
one of the target collections raises on every call and at least one other
target remains, `searchAll` returns exactly the hits of the remaining
collections, identical to running it with the failing collection removed
from the target set, and no exception propagates (the call returns
`Except.ok`). -/
theorem C5_fault_isolation_amended (bk : Backend) (qv : List ℚ)
    (query : AgentQuery) (top_k : Nat) (year_min year_max : Option Int)
    (targets : List String) (c : String) (hc : c ∈ targets)
    (hfail : ∀ vec k f, bk c vec k f = Except.error ())
    (hrem : targets.erase c ≠ []) :
    searchAllTargets bk qv query top_k year_min year_max targets =
      searchAllTargets bk qv query top_k year_min year_max (targets.erase c) ∧
    searchAllTargets bk qv query top_k year_min year_max targets =
      Except.ok (targets.flatMap (searchOne bk qv query top_k year_min year_max)) := by
  have hzero := searchOne_of_fail hfail qv query top_k year_min year_max
  have hne : targets ≠ [] := fun he => hrem (by rw [he]; rfl)
  have h1 : targets.isEmpty = false := by
    cases targets with
    | nil => exact absurd rfl hne
    | cons a t => rfl
  have h2 : (targets.erase c).isEmpty = false := by
    cases he : targets.erase c with
    | nil => exact absurd he hrem
    | cons a t => rfl
  unfold searchAllTargets
  rw [if_neg (by simp [h1]), if_neg (by simp [h2])]
  exact ⟨congrArg Except.ok (flatMap_erase_of_eq_nil hzero targets), rfl⟩

/-- Witness for C5 (amended): two target collections, `onco_cases` failing on
every call. -/
theorem C5_witness :
    searchAllTargets
        (fun n _ _ _ => if n = "onco_cases" then Except.error () else Except.ok [])
        [] ⟨"q", none⟩ 10 none none ["onco_literature", "onco_cases"] =
      searchAllTargets
        (fun n _ _ _ => if n = "onco_cases" then Except.error () else Except.ok [])
        [] ⟨"q", none⟩ 10 none none
        (["onco_literature", "onco_cases"].erase "onco_cases") :=
  (C5_fault_isolation_amended
      (fun n _ _ _ => if n = "onco_cases" then Except.error () else Except.ok [])
      [] ⟨"q", none⟩ 10 none none ["onco_literature", "onco_cases"] "onco_cases"
      (by decide) (fun _ _ _ => rfl) (by decide)).1

/-- Counterexample to C1 as stated: a single-collection executor pass over
`onco_cases` (weight 0.02) returns one hit with raw similarity score 0.9.
The raw score is well above the 0.30 threshold, so the claimed raw-score
evaluator keeps it and answers `partial`; but the executor overwrote the
`score` field with the weighted value 0.018, so `evaluate_evidence` drops
the item and answers `insufficient`. -/
theorem C1_counterexample :
    MIN_SIMILARITY_SCORE ≤ (RawHit.mk "r1" (9/10) "t").score ∧
    scoredEvidence
        (searchOne (fun _ _ _ _ => Except.ok [RawHit.mk "r1" (9/10) "t"]) []
          ⟨"q", none⟩ 10 none none "onco_cases") = [] ∧
    evaluate_evidence
        (searchOne (fun _ _ _ _ => Except.ok [RawHit.mk "r1" (9/10) "t"]) []
          ⟨"q", none⟩ 10 none none "onco_cases") = "insufficient" ∧
    evaluateRawClaim [(RawHit.mk "r1" (9/10) "t", "onco_cases")] = "partial" := by
  refine ⟨by decide, by decide, by decide, by decide⟩

/-- C1 (amended): the Evidence Sufficiency Evaluator operates on the
collection-weighted scores, because the executor overwrites each hit's
`score` field in place (`hit.score *= weight`) and no raw score survives:
for every collection configuration and raw hit list, `evaluate_evidence`'s
filter keeps exactly the items whose weighted score (raw × weight) is at
least 0.30, and its `avg_score` is the mean weighted score of the remaining
items. -/
theorem C1_evaluator_uses_weighted_scores (name : String) (cfg : CollConfig)
    (l : List RawHit) :
    scoredEvidence (tagHits name cfg l) =
      tagHits name cfg
        (l.filter (fun h => !(decide (h.score * cfg.weight < MIN_SIMILARITY_SCORE)))) ∧
    avgScoreOf (scoredEvidence (tagHits name cfg l)) =
      avgRatOf
        ((l.filter
            (fun h => !(decide (h.score * cfg.weight < MIN_SIMILARITY_SCORE)))).map
          (fun h => h.score * cfg.weight)) := by
  have h1 : scoredEvidence (tagHits name cfg l) =
      tagHits name cfg
        (l.filter (fun h => !(decide (h.score * cfg.weight < MIN_SIMILARITY_SCORE)))) := by
    unfold scoredEvidence tagHits
    rw [filter_map_comm]
    rfl
  refine ⟨h1, ?_⟩
  rw [h1]
  unfold avgScoreOf tagHits
  rw [List.map_map]
  rfl

/-- Counterexample to C2 as stated: a backend returning the same
`onco_literature` hit on every call (weighted score 0.144, below the 0.30
filter) keeps the verdict `insufficient`, so `run` exhausts all three
attempts and accumulates the same record three times; the evidence list the
returned response carries is not deduplicated by record identifier. -/
theorem C2_counterexample :
    (runAgent
        (fun n _ _ _ =>
          if n = "onco_literature" then Except.ok [RawHit.mk "PMID:1" (9/10) "t"]
          else Except.ok [])
        (fun _ => []) none none "q").evidence.hits.map (fun h => h.record_id) =
      ["PMID:1", "PMID:1", "PMID:1"] ∧
    ¬ nodupIds
      (runAgent
        (fun n _ _ _ =>
          if n = "onco_literature" then Except.ok [RawHit.mk "PMID:1" (9/10) "t"]
          else Except.ok [])
        (fun _ => []) none none "q").evidence.hits := by
  have h1 : (runAgent
      (fun n _ _ _ =>
        if n = "onco_literature" then Except.ok [RawHit.mk "PMID:1" (9/10) "t"]
        else Except.ok [])
      (fun _ => []) none none "q").evidence.hits.map (fun h => h.record_id) =
      ["PMID:1", "PMID:1", "PMID:1"] := by decide
  refine ⟨h1, fun hn => ?_⟩
  unfold nodupIds at hn
  rw [h1] at hn
  exact absurd hn (by decide)

/-- C2 (amended): the evidence `run` hands to `synthesize` and returns is the
concatenation of the per-query `cross_collection_search` results accumulated
over all attempts: every such block is individually merged/ranked
(deduplicated by record identifier, sorted descending by weighted score,
capped at 30 items), but the concatenation itself is not globally
deduplicated, re-sorted, or capped (only the LLM prompt slice
`flat_hits[:30]` is capped). -/
theorem C2_run_returns_concatenated_merged_blocks (bk : Backend)
    (emb : String → List ℚ) (expander : Option (String → List String))
    (llmAnswer : Option String) (question : String) :
    ∃ segs : List (List SearchHit),
      (runAgent bk emb expander llmAnswer question).evidence.hits = segs.flatten ∧
      ∀ s ∈ segs, nodupIds s ∧ sortedByScoreDesc s ∧ s.length ≤ MAX_EVIDENCE := by
  have hP : ∀ q, nodupIds (agentSearchFn bk emb expander q) ∧
      sortedByScoreDesc (agentSearchFn bk emb expander q) ∧
      (agentSearchFn bk emb expander q).length ≤ MAX_EVIDENCE := by
    intro q
    obtain ⟨m, hm⟩ := agentSearchFn_shape bk emb expander q
    rw [hm]
    exact ⟨mergeAndRank_nodupIds m, mergeAndRank_sorted m, mergeAndRank_length_le m⟩
  obtain ⟨segs, hs1, hs2⟩ := runAttempts_evidence_decomp
    (agentSearchFn bk emb expander) evaluate_evidence
    (search_plan question).target_genes (search_plan question).relevant_cancer_types
    question
    (fun s => nodupIds s ∧ sortedByScoreDesc s ∧ s.length ≤ MAX_EVIDENCE) hP
    (MAX_RETRIES + 1) 1
    ((search_plan question).question :: (search_plan question).sub_questions)
    (search_plan question).search_strategy [] [] rfl (by simp)
  exact ⟨segs, hs1, hs2⟩

end Onco
